import Mathlib

/-!
Verification of the smol-jsonrpc message model (src/lib.rs, src/error.rs,
src/request.rs, src/response.rs) against its natural-language specification.

JSON values are embedded as serde_json models them: numbers are kept in
three variants (unsigned 64-bit, negative 64-bit, finite double), and a
finite double is represented by its exact rational value.  Objects are
kept as key-sorted association lists, mirroring serde_json's BTreeMap.
Machine integers are Nat/Int with explicit range arithmetic.
-/

set_option maxRecDepth 10000

namespace SmolJsonrpc

/-- JSON values in the shape serde_json stores them: `numU` is a number in
u64 range, `numI` a negative number in i64 range, `numF` a finite double
given by its exact rational value; `obj` keeps entries sorted by key, as
serde_json's default BTreeMap map type does. -/
inductive Json : Type where
  | null : Json
  | bool : Bool → Json
  | numU : Nat → Json
  | numI : Int → Json
  | numF : ℚ → Json
  | str : String → Json
  | arr : List Json → Json
  | obj : List (String × Json) → Json

/-- Models serde_json Value::is_null. -/
def Json.isNull : Json → Bool
  | .null => true
  | _ => false

/-- Value of a list of ASCII decimal digits, most significant first. -/
def digitsVal (cs : List Char) : Nat :=
  cs.foldl (fun a c => a * 10 + (c.toNat - 48)) 0

/-- Models Rust str::parse for u64: an optional leading plus sign, then one
or more ASCII digits, with the value required to fit in 64 unsigned bits. -/
def parse_u64 (s : String) : Option Nat :=
  let cs := match s.data with
    | '+' :: rest => rest
    | cs => cs
  if cs ≠ [] ∧ cs.all Char.isDigit then
    if digitsVal cs < 2 ^ 64 then some (digitsVal cs) else none
  else none

/-- Models Rust str::parse for i64: an optional leading sign, then one or
more ASCII digits, with the signed value required to fit in 64 bits. -/
def parse_i64 (s : String) : Option Int :=
  let sg : Int := match s.data with
    | '-' :: _ => -1
    | _ => 1
  let cs := match s.data with
    | '-' :: rest => rest
    | '+' :: rest => rest
    | cs => cs
  if cs ≠ [] ∧ cs.all Char.isDigit then
    let v : Int := sg * (digitsVal cs : Int)
    if -2 ^ 63 ≤ v ∧ v ≤ 2 ^ 63 - 1 then some v else none
  else none

/-- Models Rust str::parse for f64 on plain decimal forms: an optional
sign, an integer part and/or a fractional part around a dot, and an
optional decimal exponent, evaluated to its exact rational value.  The
special spellings (inf, nan) contain neither a dot nor reach this parser
through id_from_value, and no claim depends on rounding to the nearest
double, so both are left out of the model. -/
def parse_f64 (s : String) : Option ℚ :=
  let sg : Int := match s.data with
    | '-' :: _ => -1
    | _ => 1
  let cs := match s.data with
    | '-' :: rest => rest
    | '+' :: rest => rest
    | cs => cs
  let mant := cs.takeWhile (fun c => !(c == 'e' || c == 'E'))
  let expPart := cs.dropWhile (fun c => !(c == 'e' || c == 'E'))
  let ip := mant.takeWhile (fun c => !(c == '.'))
  let dotfp := mant.dropWhile (fun c => !(c == '.'))
  let fp : List Char := match dotfp with
    | '.' :: fp => fp
    | _ => []
  let mantOk : Bool :=
    ip.all Char.isDigit &&
      (match dotfp with
        | [] => !ip.isEmpty
        | '.' :: fps => fps.all Char.isDigit && (!ip.isEmpty || !fps.isEmpty)
        | _ => false)
  let expOk : Bool :=
    match expPart with
    | [] => true
    | _ :: rest =>
      match rest with
      | '+' :: ds => !ds.isEmpty && ds.all Char.isDigit
      | '-' :: ds => !ds.isEmpty && ds.all Char.isDigit
      | ds => !ds.isEmpty && ds.all Char.isDigit
  let expVal : Int :=
    match expPart with
    | [] => 0
    | _ :: rest =>
      match rest with
      | '+' :: ds => (digitsVal ds : Int)
      | '-' :: ds => -(digitsVal ds : Int)
      | ds => (digitsVal ds : Int)
  let mantNum : Int := sg * (digitsVal ip * 10 ^ fp.length + digitsVal fp)
  if mantOk && expOk then
    some (if 0 ≤ expVal then
      mkRat (mantNum * 10 ^ expVal.toNat) (10 ^ fp.length)
    else
      mkRat mantNum (10 ^ fp.length * 10 ^ (-expVal).toNat))
  else none

/-- Truncation of a rational toward zero, as Rust float casts truncate. -/
def ratTrunc (q : ℚ) : Int :=
  if q < 0 then -(Rat.floor (-q)) else Rat.floor q

/-- Models the Rust cast from f64 to u64: truncation toward zero with
saturation at the bounds of the unsigned 64-bit range. -/
def f64_as_u64 (q : ℚ) : Nat :=
  let t := ratTrunc q
  if t < 0 then 0
  else if 2 ^ 64 - 1 < t then 2 ^ 64 - 1
  else t.toNat

/-- Models the Rust cast from i64 to u64: two's-complement reinterpretation,
i.e. reduction modulo 2^64. -/
def i64_as_u64 (i : Int) : Nat :=
  (i % (2 : Int) ^ 64).toNat

/-- Models Rust str::contains for a single-character pattern, over the
character list of the string. -/
def strContains (s : String) (c : Char) : Bool :=
  s.data.any (fun c2 => c2 == c)

/-- src/lib.rs id_from_value: converts a JSON value into a JSON-RPC ID.
The source tests is_null, is_u64, is_i64, is_f64, is_string in order; the
disjoint number variants of Json carry exactly those cases. -/
def id_from_value (val : Json) : Option Nat :=
  match val with
  | .null => none
  | .numU n => some n
  | .numI i => some (i64_as_u64 i)
  | .numF q => some (f64_as_u64 q)
  | .str s =>
    if strContains s '-' then (parse_i64 s).map i64_as_u64
    else if strContains s '.' then (parse_f64 s).map f64_as_u64
    else parse_u64 s
  | _ => none

/-- src/error.rs ErrorCode: the five spec-defined codes plus the catch-all
UnknownError variant. -/
inductive ErrorCode : Type where
  | ParseError : ErrorCode
  | InvalidRequest : ErrorCode
  | MethodNotFound : ErrorCode
  | InvalidParams : ErrorCode
  | InternalError : ErrorCode
  | UnknownError : ErrorCode
deriving DecidableEq

/-- src/error.rs ErrorCode::new (also the Default): ParseError. -/
def ErrorCode.new : ErrorCode := .ParseError

/-- src/error.rs impl From of ErrorCode for i32: the discriminant values. -/
def ErrorCode.toI32 : ErrorCode → Int
  | .ParseError => -32700
  | .InvalidRequest => -32600
  | .MethodNotFound => -32601
  | .InvalidParams => -32602
  | .InternalError => -32603
  | .UnknownError => -32999

/-- src/error.rs impl From of i32 for ErrorCode: the five known codes map
to their variants, everything else to UnknownError. -/
def ErrorCode.fromI32 (val : Int) : ErrorCode :=
  if val = -32700 then .ParseError
  else if val = -32600 then .InvalidRequest
  else if val = -32601 then .MethodNotFound
  else if val = -32602 then .InvalidParams
  else if val = -32603 then .InternalError
  else .UnknownError

/-- src/error.rs impl From of ErrorCode for the static name string. -/
def ErrorCode.name : ErrorCode → String
  | .ParseError => "Parse error"
  | .InvalidRequest => "Invalid request"
  | .MethodNotFound => "Method not found"
  | .InvalidParams => "Invalid params"
  | .InternalError => "Internal error"
  | .UnknownError => "Unknown error"

/-- src/error.rs impl Display for ErrorCode: name followed by the integer
in parentheses. -/
def ErrorCode.display (c : ErrorCode) : String :=
  c.name ++ " (" ++ toString c.toI32 ++ ")"

/-- src/error.rs Error: code, message and free-form data payload. -/
structure Error : Type where
  code : ErrorCode
  message : String
  data : Json

/-- src/error.rs Error::new: ParseError code, empty message, null data. -/
def Error.new : Error := ⟨ErrorCode.new, "", .null⟩

/-- src/error.rs Error::with_code. -/
def Error.with_code (e : Error) (c : ErrorCode) : Error := { e with code := c }

/-- src/error.rs Error::with_message. -/
def Error.with_message (e : Error) (m : String) : Error := { e with message := m }

/-- src/error.rs Error::with_data, after the json! conversion of its
serializable argument into a Value. -/
def Error.with_data (e : Error) (d : Json) : Error := { e with data := d }

/-- src/error.rs impl PartialEq for Error: code and message only, data is
ignored. -/
def Error.peq (a b : Error) : Bool :=
  decide (a.code = b.code) && decide (a.message = b.message)

/-- src/error.rs impl From of serde_json::Error for Error: ParseError code,
the failure's textual description as message, null data. -/
def Error.fromSerdeMsg (msg : String) : Error := ⟨.ParseError, msg, .null⟩

/-- Hex digit characters as serde_json's escape writer emits them. -/
def hexDigit (n : Nat) : Char :=
  if n < 10 then Char.ofNat (48 + n) else Char.ofNat (87 + n)

/-- Models serde_json's string escaping for one character: quote, backslash
and control characters are escaped, everything else passes through. -/
def escapeChar (c : Char) : String :=
  if c = '"' then "\\\""
  else if c = '\\' then "\\\\"
  else if c = '\n' then "\\n"
  else if c = '\r' then "\\r"
  else if c = '\t' then "\\t"
  else if c.toNat = 8 then "\\b"
  else if c.toNat = 12 then "\\f"
  else if c.toNat < 32 then
    "\\u00" ++ String.mk [hexDigit (c.toNat / 16), hexDigit (c.toNat % 16)]
  else String.mk [c]

/-- Models serde_json's JSON string rendering: quoted and escaped. -/
def escapeString (s : String) : String :=
  "\"" ++ String.join (s.data.map escapeChar) ++ "\""

/-- Stand-in rendering for a float: serde_json uses the ryu shortest-form
algorithm, which no claim exercises, so an exact-decimal rendering of the
rational suffices for totality of the serializer. -/
def serFloat (q : ℚ) : String :=
  if q.den = 1 then toString q.num ++ ".0"
  else toString q.num ++ "/" ++ toString q.den

mutual

/-- Models serde_json's compact serialization of a Value to a string;
object entries are already key-sorted in the Json representation, as in
serde_json's BTreeMap-backed map. -/
def ser : Json → String
  | .null => "null"
  | .bool true => "true"
  | .bool false => "false"
  | .numU n => toString n
  | .numI i => toString i
  | .numF q => serFloat q
  | .str s => escapeString s
  | .arr xs => "[" ++ String.intercalate "," (serList xs) ++ "]"
  | .obj kvs => "\x7b" ++ String.intercalate "," (serObj kvs) ++ "\x7d"
termination_by structural j => j

/-- Serializes the elements of a JSON array. -/
def serList : List Json → List String
  | [] => []
  | x :: xs => ser x :: serList xs
termination_by structural l => l

/-- Serializes the entries of a JSON object. -/
def serObj : List (String × Json) → List String
  | [] => []
  | (k, v) :: xs => (escapeString k ++ ":" ++ ser v) :: serObj xs
termination_by structural l => l

end

/-- Lexicographic strict order on character lists: the order of Rust's Ord
for String, whose byte order agrees with scalar-value order. -/
def charListLt : List Char → List Char → Bool
  | [], [] => false
  | [], _ :: _ => true
  | _ :: _, [] => false
  | c1 :: t1, c2 :: t2 =>
    if c1.toNat < c2.toNat then true
    else if c2.toNat < c1.toNat then false
    else charListLt t1 t2

/-- Lexicographic strict order on strings, as BTreeMap orders its keys. -/
def strLt (a b : String) : Bool := charListLt a.data b.data

/-- Insertion into a key-sorted association list, as serde_json's BTreeMap
insert behaves (an existing key is overwritten in place). -/
def insertKV (k : String) (v : Json) :
    List (String × Json) → List (String × Json)
  | [] => [(k, v)]
  | (k', v') :: rest =>
    if k = k' then (k, v) :: rest
    else if strLt k k' then (k, v) :: (k', v') :: rest
    else (k', v') :: insertKV k v rest

/-- Models serde_json's conversion of an i32 into a Value number: values in
u64 range become the unsigned variant, negatives the signed one. -/
def intToJsonNum (i : Int) : Json :=
  if i < 0 then .numI i else .numU i.toNat

/-- Models json! applied to an Error, i.e. serde_json::to_value driving the
custom Serialize impl of src/error.rs: the fields code (as its i32 wire
value), message and data are written into a BTreeMap-backed object, which
keeps them sorted by key. -/
def Error.toValue (e : Error) : Json :=
  Json.obj (insertKV "code" (intToJsonNum e.code.toI32)
    (insertKV "message" (Json.str e.message)
      (insertKV "data" e.data [])))

/-- Association-list lookup, the Value-map access used when deserializing. -/
def lookupKey (k : String) : List (String × Json) → Option Json
  | [] => none
  | (k', v) :: rest => if k = k' then some v else lookupKey k rest

/-- Models deserializing an i32 from a serde_json Value: integer numbers
within i32 range succeed, everything else is a type or range error.  The
diagnostic texts are abbreviated stand-ins for serde's. -/
def deserI32 : Json → Except String Int
  | .numU n => if (n : Int) ≤ 2147483647 then .ok (n : Int)
      else .error "out of range integral type conversion attempted"
  | .numI i => if -2147483648 ≤ i ∧ i ≤ 2147483647 then .ok i
      else .error "out of range integral type conversion attempted"
  | _ => .error "invalid type for field code"

/-- Models serde_json::from_value for Error via its derived Deserialize
impl together with the custom Deserialize of ErrorCode (an i32 is read and
converted through From of i32).  A JSON object must carry a code, message
and data field of the right shapes, unknown fields being ignored; a JSON
array is routed through the derived visit_seq, which reads the fields in
declaration order code, message, data, errors on a too-short array, and
whose caller in serde_json rejects trailing elements.  Everything else is
a type error. -/
def fromValueError (v : Json) : Except String Error :=
  match v with
  | .obj kvs =>
    match lookupKey "code" kvs with
    | none => .error "missing field code"
    | some cv =>
      match deserI32 cv with
      | .error m => .error m
      | .ok i =>
        match lookupKey "message" kvs with
        | none => .error "missing field message"
        | some mv =>
          match mv with
          | .str m =>
            match lookupKey "data" kvs with
            | none => .error "missing field data"
            | some d => .ok ⟨ErrorCode.fromI32 i, m, d⟩
          | _ => .error "invalid type for field message"
  | .arr xs =>
    match xs with
    | [] => .error "invalid length 0, expected struct Error with 3 elements"
    | cv :: rest1 =>
      match deserI32 cv with
      | .error m => .error m
      | .ok i =>
        match rest1 with
        | [] =>
          .error "invalid length 1, expected struct Error with 3 elements"
        | mv :: rest2 =>
          match mv with
          | .str m =>
            match rest2 with
            | [] => .error
                "invalid length 2, expected struct Error with 3 elements"
            | [dv] => .ok ⟨ErrorCode.fromI32 i, m, dv⟩
            | _ :: _ :: _ => .error "fewer elements in array"
          | _ => .error "invalid type for field message"
  | _ => .error "invalid type: expected struct Error"

/-- src/error.rs impl Display for Error: a JSON-fragment-like rendering,
with the data segment omitted when data is null.  The code is rendered
through the Display of ErrorCode, the data through the Display of Value,
which is its compact serialization. -/
def Error.display (e : Error) : String :=
  if e.data.isNull then
    "\"code\": " ++ e.code.display ++ ", \"message\": \"" ++ e.message ++ "\""
  else
    "\"code\": " ++ e.code.display ++ ", \"message\": \"" ++ e.message
      ++ "\", \"data\": " ++ ser e.data

/-- src/request.rs Request: raw jsonrpc value and optional id, method and
params slots, all stored as untyped JSON. -/
structure Request : Type where
  jsonrpc : Json
  id : Option Json
  method : Option Json
  params : Option Json

/-- src/request.rs Request::new. -/
def Request.new : Request := ⟨.str "2.0", none, none, none⟩

/-- src/request.rs Request::new_null. -/
def Request.new_null : Request := ⟨.null, none, none, none⟩

/-- src/request.rs Request::id (named get_id here, since the field
projection takes the source name): maps id_from_value over the stored id
and normalizes a failed coercion to 0 via unwrap_or. -/
def Request.get_id (r : Request) : Option Nat :=
  r.id.map (fun v => (id_from_value v).getD 0)

/-- src/request.rs Request::set_id: stores json! of the u64. -/
def Request.set_id (r : Request) (n : Nat) : Request :=
  { r with id := some (.numU n) }

/-- src/request.rs Request::with_id. -/
def Request.with_id (r : Request) (n : Nat) : Request := r.set_id n

/-- src/request.rs Request::params (named get_params here): generic over
the target type, with serde_json::from_value abstracted as a decoder that
either yields a value or a serde diagnostic message.  An absent params
slot yields the InvalidParams error of the source; a decoder failure is
converted through From of serde_json::Error. -/
def Request.get_params {T : Type} (dec : Json → Except String T)
    (r : Request) : Except Error T :=
  match r.params with
  | some p => (dec p).mapError Error.fromSerdeMsg
  | none => .error ((Error.new.with_code .InvalidParams).with_message
      "null Params field")

/-- src/response.rs Response: raw jsonrpc and id values and optional
result and error slots, all stored as untyped JSON. -/
structure Response : Type where
  jsonrpc : Json
  id : Json
  result : Option Json
  error : Option Json

/-- src/response.rs Response::new. -/
def Response.new : Response := ⟨.str "2.0", .null, none, none⟩

/-- src/response.rs Response::new_null. -/
def Response.new_null : Response := ⟨.null, .null, none, none⟩

/-- src/response.rs Response::id (named get_id here): id_from_value applied
directly to the stored id value, with no normalization of failures. -/
def Response.get_id (r : Response) : Option Nat :=
  id_from_value r.id

/-- src/response.rs Response::set_id: stores json! of the u64. -/
def Response.set_id (r : Response) (n : Nat) : Response :=
  { r with id := .numU n }

/-- src/response.rs Response::with_id. -/
def Response.with_id (r : Response) (n : Nat) : Response :=
  { r with id := .numU n }

/-- src/response.rs Response::result (named get_result here), the exact
counterpart of Request::params on the result slot. -/
def Response.get_result {T : Type} (dec : Json → Except String T)
    (r : Response) : Except Error T :=
  match r.result with
  | some p => (dec p).mapError Error.fromSerdeMsg
  | none => .error ((Error.new.with_code .InvalidParams).with_message
      "null Result field")

/-- src/response.rs Response::error (named get_error here): an absent slot
yields none; a present slot is deserialized as an Error, and a failure is
converted through From of serde_json::Error into a best-effort Error. -/
def Response.get_error (r : Response) : Option Error :=
  r.error.map (fun v =>
    match fromValueError v with
    | .ok e => e
    | .error m => Error.fromSerdeMsg m)

/-- src/response.rs Response::set_error: stores json! of the Error. -/
def Response.set_error (r : Response) (e : Error) : Response :=
  { r with error := some e.toValue }

/-- src/response.rs Response::with_error. -/
def Response.with_error (r : Response) (e : Error) : Response :=
  r.set_error e

/-- src/response.rs Response::set_result, after the json! conversion of its
serializable argument into a Value. -/
def Response.set_result (r : Response) (v : Json) : Response :=
  { r with result := some v }

/-- src/response.rs Response::with_result. -/
def Response.with_result (r : Response) (v : Json) : Response :=
  r.set_result v

/-- Serialization of an optional Value slot: derived Serialize renders a
None as null and a Some as the value itself. -/
def serOptVal : Option Json → String
  | none => "null"
  | some v => ser v

/-- Models serde_json::to_string for Response: the derived Serialize impl
emits the four fields in declaration order. -/
def Response.to_json_string (r : Response) : String :=
  "\x7b\"jsonrpc\":" ++ ser r.jsonrpc ++ ",\"id\":" ++ ser r.id
    ++ ",\"result\":" ++ serOptVal r.result
    ++ ",\"error\":" ++ serOptVal r.error ++ "\x7d"

/-- C1 (amended): for each of the five spec-defined integers, converting
i32 to ErrorCode and back is the identity; every other i32 maps to the
UnknownError sentinel -32999, which differs from the original value except
when the original is -32999 itself. -/
theorem C1_errorcode_roundtrip :
    (∀ v : Int,
      (v = -32700 ∨ v = -32600 ∨ v = -32601 ∨ v = -32602 ∨ v = -32603) →
      ErrorCode.toI32 (ErrorCode.fromI32 v) = v) ∧
    (∀ v : Int, v ≠ -32700 → v ≠ -32600 → v ≠ -32601 → v ≠ -32602 →
      v ≠ -32603 →
      ErrorCode.toI32 (ErrorCode.fromI32 v) = -32999 ∧
        (v ≠ -32999 → ErrorCode.toI32 (ErrorCode.fromI32 v) ≠ v)) := by
  constructor
  · rintro v (rfl | rfl | rfl | rfl | rfl) <;> rfl
  · intro v h1 h2 h3 h4 h5
    have hru : ErrorCode.fromI32 v = .UnknownError := by
      unfold ErrorCode.fromI32
      rw [if_neg h1, if_neg h2, if_neg h3, if_neg h4, if_neg h5]
    rw [hru]
    exact ⟨rfl, fun h6 hc => h6 hc.symm⟩

/-- C1 witness: the round trip at the known code -32601 and at the
unrecognized code 7. -/
theorem C1_errorcode_roundtrip_witness :
    ErrorCode.toI32 (ErrorCode.fromI32 (-32601)) = -32601 ∧
    ErrorCode.toI32 (ErrorCode.fromI32 7) = -32999 ∧
    ErrorCode.toI32 (ErrorCode.fromI32 7) ≠ 7 :=
  ⟨C1_errorcode_roundtrip.1 (-32601) (Or.inr (Or.inr (Or.inl rfl))),
   (C1_errorcode_roundtrip.2 7 (by decide) (by decide) (by decide)
     (by decide) (by decide)).1,
   (C1_errorcode_roundtrip.2 7 (by decide) (by decide) (by decide)
     (by decide) (by decide)).2 (by decide)⟩

/-- C1 counterexample: -32999 is not one of the five spec-defined codes,
yet its round trip returns the original value, refuting the claim that the
round trip never yields the original for values outside the five. -/
theorem C1_errorcode_roundtrip_counterexample :
    ((-32999 : Int) ≠ -32700 ∧ (-32999 : Int) ≠ -32600 ∧
      (-32999 : Int) ≠ -32601 ∧ (-32999 : Int) ≠ -32602 ∧
      (-32999 : Int) ≠ -32603) ∧
    ErrorCode.toI32 (ErrorCode.fromI32 (-32999)) = -32999 := by decide

/-- C2 counterexample: at the float -5/2 the code returns 0, the result of
Rust's saturating float-to-integer cast, and not the two's-complement
reinterpretation 2^64 - 2 of the truncation toward zero that the claim
prescribes for floats. -/
theorem C2_id_from_value_counterexample :
    id_from_value (Json.numF (mkRat (-5) 2)) = some 0 ∧
    i64_as_u64 (ratTrunc (mkRat (-5) 2)) ≠ 0 := by decide

/-- C2 (amended): id_from_value is a total pure function: null gives none;
an unsigned integer gives its value; a negative integer gives its
two's-complement reinterpretation as u64; a float is converted with the
saturating Rust cast (truncation toward zero clamped into u64 range, so a
negative float gives 0, not a reinterpretation); a string with a hyphen is
parsed as i64 then reinterpreted, a string with a period is parsed as f64
then converted with the saturating cast, any other string is parsed as u64
directly, and a parse failure gives none; bool, array and object give
none. -/
theorem C2_id_from_value_cases :
    id_from_value Json.null = none ∧
    (∀ n : Nat, id_from_value (Json.numU n) = some n) ∧
    (∀ i : Int,
      id_from_value (Json.numI i) = some ((i % (2 : Int) ^ 64).toNat)) ∧
    (∀ q : ℚ, id_from_value (Json.numF q) =
      some (if ratTrunc q < 0 then 0
        else if 2 ^ 64 - 1 < ratTrunc q then 2 ^ 64 - 1
        else (ratTrunc q).toNat)) ∧
    (∀ s : String, strContains s '-' = true →
      id_from_value (Json.str s) = (parse_i64 s).map i64_as_u64) ∧
    (∀ s : String, strContains s '-' = false → strContains s '.' = true →
      id_from_value (Json.str s) = (parse_f64 s).map f64_as_u64) ∧
    (∀ s : String, strContains s '-' = false → strContains s '.' = false →
      id_from_value (Json.str s) = parse_u64 s) ∧
    (∀ b : Bool, id_from_value (Json.bool b) = none) ∧
    (∀ xs : List Json, id_from_value (Json.arr xs) = none) ∧
    (∀ kvs : List (String × Json), id_from_value (Json.obj kvs) = none) := by
  refine ⟨rfl, fun n => rfl, fun i => rfl, fun q => rfl, ?_, ?_, ?_,
    fun b => rfl, fun xs => rfl, fun kvs => rfl⟩
  · intro s h
    simp [id_from_value, h]
  · intro s h1 h2
    simp [id_from_value, h1, h2]
  · intro s h1 h2
    simp [id_from_value, h1, h2]

/-- C2 witness: the three string routes at concrete inputs. -/
theorem C2_id_from_value_cases_witness :
    id_from_value (Json.str "-5") = (parse_i64 "-5").map i64_as_u64 ∧
    id_from_value (Json.str "2.5") = (parse_f64 "2.5").map f64_as_u64 ∧
    id_from_value (Json.str "7") = parse_u64 "7" :=
  ⟨C2_id_from_value_cases.2.2.2.2.1 "-5" (by decide),
   C2_id_from_value_cases.2.2.2.2.2.1 "2.5" (by decide) (by decide),
   C2_id_from_value_cases.2.2.2.2.2.2.1 "7" (by decide) (by decide)⟩

/-- C3: Request::id() returns none when no id field is stored; when the id
field holds a value on which coercion fails it returns some 0; when
coercion succeeds it returns the coerced value. -/
theorem C3_request_id :
    (∀ r : Request, r.id = none → Request.get_id r = none) ∧
    (∀ (r : Request) (v : Json), r.id = some v → id_from_value v = none →
      Request.get_id r = some 0) ∧
    (∀ (r : Request) (v : Json) (n : Nat), r.id = some v →
      id_from_value v = some n → Request.get_id r = some n) := by
  refine ⟨?_, ?_, ?_⟩
  · intro r h
    simp [Request.get_id, h]
  · intro r v h1 h2
    simp [Request.get_id, h1, h2]
  · intro r v n h1 h2
    simp [Request.get_id, h1, h2]

/-- C3 witness: absent id, uncoercible id and numeric id on concrete
requests. -/
theorem C3_request_id_witness :
    Request.get_id ⟨Json.str "2.0", none, none, none⟩ = none ∧
    Request.get_id ⟨Json.str "2.0", some (Json.bool true), none, none⟩
      = some 0 ∧
    Request.get_id ⟨Json.str "2.0", some (Json.numU 7), none, none⟩
      = some 7 :=
  ⟨C3_request_id.1 ⟨Json.str "2.0", none, none, none⟩ rfl,
   C3_request_id.2.1 ⟨Json.str "2.0", some (Json.bool true), none, none⟩
     (Json.bool true) rfl rfl,
   C3_request_id.2.2 ⟨Json.str "2.0", some (Json.numU 7), none, none⟩
     (Json.numU 7) 7 rfl rfl⟩

/-- C4 counterexample: the same stored id value, a JSON boolean, gives
some 0 through Request::id() but none through Response::id(), so the two
accessors do not have identical semantics on uncoercible ids. -/
theorem C4_response_id_counterexample :
    Request.get_id ⟨Json.str "2.0", some (Json.bool true), none, none⟩
      = some 0 ∧
    Response.get_id ⟨Json.str "2.0", Json.bool true, none, none⟩ = none ∧
    some 0 ≠ (none : Option Nat) := by decide

/-- C4 (amended): set_id and with_id behave identically across Request and
Response, and the two id() accessors agree on every stored value that
coerces successfully; but when coercion fails, Request::id() returns
some 0 while Response::id() returns none. -/
theorem C4_response_id_semantics :
    (∀ (v : Json) (n : Nat), id_from_value v = some n →
      Request.get_id { Request.new with id := some v } = some n ∧
      Response.get_id { Response.new with id := v } = some n) ∧
    (∀ v : Json, id_from_value v = none →
      Request.get_id { Request.new with id := some v } = some 0 ∧
      Response.get_id { Response.new with id := v } = none) ∧
    (∀ (r : Request) (n : Nat),
      Request.get_id (Request.set_id r n) = some n ∧
      Request.with_id r n = Request.set_id r n) ∧
    (∀ (r : Response) (n : Nat),
      Response.get_id (Response.set_id r n) = some n ∧
      Response.with_id r n = Response.set_id r n) := by
  refine ⟨?_, ?_, ?_, ?_⟩
  · intro v n h
    exact ⟨by simp [Request.get_id, h], by simp [Response.get_id, h]⟩
  · intro v h
    exact ⟨by simp [Request.get_id, h], by simp [Response.get_id, h]⟩
  · intro r n
    exact ⟨rfl, rfl⟩
  · intro r n
    exact ⟨rfl, rfl⟩

/-- C4 witness: a coercible and an uncoercible stored id value. -/
theorem C4_response_id_semantics_witness :
    (Request.get_id { Request.new with id := some (Json.numU 3) }
        = some 3 ∧
      Response.get_id { Response.new with id := Json.numU 3 } = some 3) ∧
    (Request.get_id { Request.new with id := some (Json.bool true) }
        = some 0 ∧
      Response.get_id { Response.new with id := Json.bool true } = none) :=
  ⟨C4_response_id_semantics.1 (Json.numU 3) 3 rfl,
   C4_response_id_semantics.2.1 (Json.bool true) rfl⟩

/-- C5 counterexample: the serialized error response is not the claimed
string, whose error object would order its fields code, message, data. -/
theorem C5_error_response_serialization_counterexample :
    Response.to_json_string
        ((Response.new.with_id 1).with_error (Error.new.with_message "e"))
      ≠ "\x7b\"jsonrpc\":\"2.0\",\"id\":1,\"result\":null,\"error\":\x7b\"code\":-32700,\"message\":\"e\",\"data\":null\x7d\x7d" := by
  decide

/-- C5 (amended): the error response serializes with the error object's
fields in sorted key order code, data, message, because the Error is
stored as a BTreeMap-backed JSON value; this matches the repository's own
test expectation in src/response.rs. -/
theorem C5_error_response_serialization :
    Response.to_json_string
        ((Response.new.with_id 1).with_error (Error.new.with_message "e"))
      = "\x7b\"jsonrpc\":\"2.0\",\"id\":1,\"result\":null,\"error\":\x7b\"code\":-32700,\"data\":null,\"message\":\"e\"\x7d\x7d" := by
  decide

/-- C6: for every target type, params() on a request without a params
field fails with InvalidParams and message "null Params field", and with an
incompatible params value fails with a ParseError-coded error carrying the
decoder's diagnostic; result() obeys the same contract on the result
field with message "null Result field". -/
theorem C6_typed_accessor_errors :
    (∀ (T : Type) (dec : Json → Except String T) (r : Request),
      r.params = none →
      Request.get_params dec r =
        .error ⟨.InvalidParams, "null Params field", .null⟩) ∧
    (∀ (T : Type) (dec : Json → Except String T) (r : Request) (p : Json)
      (m : String), r.params = some p → dec p = .error m →
      Request.get_params dec r = .error ⟨.ParseError, m, .null⟩) ∧
    (∀ (T : Type) (dec : Json → Except String T) (r : Response),
      r.result = none →
      Response.get_result dec r =
        .error ⟨.InvalidParams, "null Result field", .null⟩) ∧
    (∀ (T : Type) (dec : Json → Except String T) (r : Response) (p : Json)
      (m : String), r.result = some p → dec p = .error m →
      Response.get_result dec r = .error ⟨.ParseError, m, .null⟩) := by
  refine ⟨?_, ?_, ?_, ?_⟩
  · intro T dec r h
    simp [Request.get_params, h]
    rfl
  · intro T dec r p m h1 h2
    simp [Request.get_params, h1, h2, Except.mapError, Error.fromSerdeMsg]
  · intro T dec r h
    simp [Response.get_result, h]
    rfl
  · intro T dec r p m h1 h2
    simp [Response.get_result, h1, h2, Except.mapError, Error.fromSerdeMsg]

/-- C6 witness: a Nat decoder against absent and incompatible slots. -/
theorem C6_typed_accessor_errors_witness :
    Request.get_params
        (fun j => match j with
          | Json.numU n => Except.ok n
          | _ => Except.error "invalid type")
        ⟨Json.str "2.0", none, none, none⟩
      = Except.error ⟨.InvalidParams, "null Params field", .null⟩ ∧
    Request.get_params
        (fun j => match j with
          | Json.numU n => Except.ok n
          | _ => Except.error "invalid type")
        ⟨Json.str "2.0", none, none, some (Json.str "x")⟩
      = Except.error ⟨.ParseError, "invalid type", .null⟩ ∧
    Response.get_result
        (fun j => match j with
          | Json.numU n => Except.ok n
          | _ => Except.error "invalid type")
        ⟨Json.str "2.0", Json.null, none, none⟩
      = Except.error ⟨.InvalidParams, "null Result field", .null⟩ ∧
    Response.get_result
        (fun j => match j with
          | Json.numU n => Except.ok n
          | _ => Except.error "invalid type")
        ⟨Json.str "2.0", Json.null, some (Json.str "x"), none⟩
      = Except.error ⟨.ParseError, "invalid type", .null⟩ :=
  ⟨C6_typed_accessor_errors.1 Nat
      (fun j => match j with
        | Json.numU n => Except.ok n
        | _ => Except.error "invalid type")
      ⟨Json.str "2.0", none, none, none⟩ rfl,
   C6_typed_accessor_errors.2.1 Nat
      (fun j => match j with
        | Json.numU n => Except.ok n
        | _ => Except.error "invalid type")
      ⟨Json.str "2.0", none, none, some (Json.str "x")⟩ (Json.str "x")
      "invalid type" rfl rfl,
   C6_typed_accessor_errors.2.2.1 Nat
      (fun j => match j with
        | Json.numU n => Except.ok n
        | _ => Except.error "invalid type")
      ⟨Json.str "2.0", Json.null, none, none⟩ rfl,
   C6_typed_accessor_errors.2.2.2 Nat
      (fun j => match j with
        | Json.numU n => Except.ok n
        | _ => Except.error "invalid type")
      ⟨Json.str "2.0", Json.null, some (Json.str "x"), none⟩
      (Json.str "x") "invalid type" rfl rfl⟩

/-- C7: Response::error() is total: none when the error slot is absent;
some of the decoded Error when the stored JSON conforms; and some of a
best-effort Error with ParseError code and the decoding diagnostic as
message when it does not, never a propagated failure. -/
theorem C7_response_error_total :
    (∀ r : Response, r.error = none → Response.get_error r = none) ∧
    (∀ (r : Response) (v : Json) (e : Error), r.error = some v →
      fromValueError v = .ok e → Response.get_error r = some e) ∧
    (∀ (r : Response) (v : Json) (m : String), r.error = some v →
      fromValueError v = .error m →
      Response.get_error r = some ⟨.ParseError, m, .null⟩) := by
  refine ⟨?_, ?_, ?_⟩
  · intro r h
    simp [Response.get_error, h]
  · intro r v e h1 h2
    simp [Response.get_error, h1, h2]
  · intro r v m h1 h2
    simp [Response.get_error, h1, h2, Error.fromSerdeMsg]

/-- C7 witness: absent, well-formed object-shaped, well-formed
sequence-shaped and malformed error slots. -/
theorem C7_response_error_total_witness :
    Response.get_error ⟨Json.str "2.0", Json.null, none, none⟩ = none ∧
    Response.get_error ⟨Json.str "2.0", Json.null, none,
        some (Json.obj [("code", Json.numI (-32700)), ("data", Json.null),
          ("message", Json.str "e")])⟩
      = some ⟨.ParseError, "e", Json.null⟩ ∧
    Response.get_error ⟨Json.str "2.0", Json.null, none,
        some (Json.arr [Json.numI (-32601), Json.str "e", Json.null])⟩
      = some ⟨.MethodNotFound, "e", Json.null⟩ ∧
    Response.get_error ⟨Json.str "2.0", Json.null, none,
        some (Json.bool true)⟩
      = some ⟨.ParseError, "invalid type: expected struct Error",
          Json.null⟩ :=
  ⟨C7_response_error_total.1 ⟨Json.str "2.0", Json.null, none, none⟩ rfl,
   C7_response_error_total.2.1 ⟨Json.str "2.0", Json.null, none,
      some (Json.obj [("code", Json.numI (-32700)), ("data", Json.null),
        ("message", Json.str "e")])⟩
      (Json.obj [("code", Json.numI (-32700)), ("data", Json.null),
        ("message", Json.str "e")])
      ⟨.ParseError, "e", Json.null⟩ rfl rfl,
   C7_response_error_total.2.1 ⟨Json.str "2.0", Json.null, none,
      some (Json.arr [Json.numI (-32601), Json.str "e", Json.null])⟩
      (Json.arr [Json.numI (-32601), Json.str "e", Json.null])
      ⟨.MethodNotFound, "e", Json.null⟩ rfl rfl,
   C7_response_error_total.2.2 ⟨Json.str "2.0", Json.null, none,
      some (Json.bool true)⟩ (Json.bool true)
      "invalid type: expected struct Error" rfl rfl⟩

/-- C8: Error equality compares exactly code and message; in particular
two Errors with equal code and message but different data are equal. -/
theorem C8_error_equality :
    (∀ a b : Error,
      Error.peq a b = true ↔ a.code = b.code ∧ a.message = b.message) ∧
    (∀ (c : ErrorCode) (m : String) (d1 d2 : Json),
      Error.peq ⟨c, m, d1⟩ ⟨c, m, d2⟩ = true) := by
  constructor
  · intro a b
    simp [Error.peq]
  · intro c m d1 d2
    simp [Error.peq]

/-- C9 counterexample: the Display rendering of a default error with
message e carries the code as its name-and-integer form, not the bare
signed integer the claim prescribes. -/
theorem C9_error_display_counterexample :
    Error.display (Error.new.with_message "e")
      ≠ "\"code\": -32700, \"message\": \"e\"" ∧
    Error.display (Error.new.with_message "e")
      = "\"code\": Parse error (-32700), \"message\": \"e\"" := by decide

/-- C9 (amended): Display renders the code through ErrorCode's Display,
the string name followed by the signed integer in parentheses, followed by
the quoted message, and a data segment exactly when data is not null. -/
theorem C9_error_display :
    (∀ c : ErrorCode, ErrorCode.display c
      = ErrorCode.name c ++ " (" ++ toString (ErrorCode.toI32 c) ++ ")") ∧
    (∀ e : Error, e.data.isNull = true →
      Error.display e = "\"code\": " ++ ErrorCode.display e.code
        ++ ", \"message\": \"" ++ e.message ++ "\"") ∧
    (∀ e : Error, e.data.isNull = false →
      Error.display e = "\"code\": " ++ ErrorCode.display e.code
        ++ ", \"message\": \"" ++ e.message ++ "\", \"data\": "
        ++ ser e.data) := by
  refine ⟨fun c => rfl, ?_, ?_⟩
  · intro e h
    simp [Error.display, h]
  · intro e h
    simp [Error.display, h]

/-- C9 witness: null data and non-null data at concrete errors. -/
theorem C9_error_display_witness :
    Error.display (Error.new.with_message "e")
      = "\"code\": " ++ ErrorCode.display (Error.new.with_message "e").code
        ++ ", \"message\": \"" ++ (Error.new.with_message "e").message
        ++ "\"" ∧
    Error.display ((Error.new.with_message "e").with_data (Json.numU 5))
      = "\"code\": "
        ++ ErrorCode.display
          ((Error.new.with_message "e").with_data (Json.numU 5)).code
        ++ ", \"message\": \""
        ++ ((Error.new.with_message "e").with_data (Json.numU 5)).message
        ++ "\", \"data\": "
        ++ ser ((Error.new.with_message "e").with_data (Json.numU 5)).data :=
  ⟨C9_error_display.2.1 (Error.new.with_message "e") rfl,
   C9_error_display.2.2
     ((Error.new.with_message "e").with_data (Json.numU 5)) rfl⟩

/-- C10: storing any Error through with_error and reading it back through
error() loses nothing: code, message and data all round-trip, for every
ErrorCode variant and every JSON data payload. -/
theorem C10_error_roundtrip :
    ∀ e : Error, Response.get_error (Response.new.with_error e) = some e := by
  intro e
  obtain ⟨c, m, d⟩ := e
  cases c <;> rfl

end SmolJsonrpc
